import Mathlib

/-!
Verification of the industrial agent orchestrator workflow.

Shallow embedding of the repository's core: the intent classifier and state
machine of `src/app/agents/orchestrator.py`, the safety critic of
`src/app/agents/safety.py` with the report schema of
`src/app/schemas/safety.py`, the physics tool of `src/app/tools/simulator.py`,
and the result formatting of `run_orchestrator` consumed by `src/main.py`.

External collaborators (the RAG retriever's vector store, the synthesizer's
language model, and the Guardrails JSON parser configured by the RAIL file,
which is not among the given source files) are parameters of the embedding:
theorems quantify over them.
-/

/-! ## String helpers: Python `c.isdigit()`, `s.lower()` and `sub in s` -/

/-- Python's `sub in s`: `pat` occurs as a contiguous substring of `l`. -/
def listContainsSub (pat l : List Char) : Bool :=
  (List.range (l.length + 1)).any (fun i => List.isPrefixOf pat (l.drop i))

/-- Python's `pat in s` on strings. -/
def containsSub (s pat : String) : Bool :=
  listContainsSub pat.data s.data

/-- Python's `any(char.isdigit() for char in s)` (ASCII digits). -/
def hasDigit (s : String) : Bool :=
  s.data.any Char.isDigit

/-- Python's `s.lower()` (ASCII case folding). -/
def lowerStr (s : String) : String :=
  String.mk (s.data.map Char.toLower)

/-! ## Intent classification (`node_planner`, orchestrator.py lines 37-57) -/

inductive Intent where
  | retrieval
  | calculation
  | hybrid
deriving DecidableEq, Repr

/-- The routing heuristic of `node_planner` (orchestrator.py lines 49-54):
a digit together with a "psi" or "m3" token means calculation; otherwise a
"safety" or "manual" keyword means retrieval; otherwise hybrid. -/
def classifyIntent (query : String) : Intent :=
  if hasDigit query && (containsSub (lowerStr query) "psi" || containsSub (lowerStr query) "m3") then
    Intent.calculation
  else if containsSub (lowerStr query) "safety" || containsSub (lowerStr query) "manual" then
    Intent.retrieval
  else
    Intent.hybrid

/-! ## The physics tool (`calc_pressure_flow`, simulator.py lines 22-78)

Python floats are modelled by rationals; `PI_VAL` is the IEEE double
`math.pi` and `roundTo2` models `round(x, 2)` (Python rounds float ties to even; the
claims checked here never reach a tie). -/

structure SimulationResult where
  input_flow_rate : Rat
  estimated_pressure_psi : Rat
  status : String
  warning : Option String
deriving DecidableEq, Repr

/-- The IEEE double value of Python's `math.pi`. -/
def PI_VAL : Rat := 884279719003555 / 281474976710656

/-- Python's `round(x, 2)`. -/
def roundTo2 (x : Rat) : Rat := (round (x * 100) : Int) / 100

/-- Function `calc_pressure_flow` (simulator.py lines 22-78). The `viscosity`
parameter is accepted and unused, as in the source (its Python default is
0.9). A negative flow rate returns an ERROR record; otherwise the simplified
pressure-drop formula runs on the mock constants. -/
def calc_pressure_flow (flow_rate : Rat) (viscosity : Rat) : SimulationResult :=
  if flow_rate < 0 then
    { input_flow_rate := flow_rate
      estimated_pressure_psi := 0
      status := "ERROR"
      warning := some "Flow rate cannot be negative." }
  else
    let FRICTION_FACTOR : Rat := 2 / 100
    let PIPE_DIAMETER_M : Rat := 1 / 10
    let FLUID_DENSITY_KG_M3 : Rat := 850
    let area := PI_VAL * (PIPE_DIAMETER_M / 2) ^ 2
    let velocity := flow_rate / (area * 3600)
    let delta_p_pascal := FRICTION_FACTOR * (1 / PIPE_DIAMETER_M) * (1 / 2 * FLUID_DENSITY_KG_M3 * velocity ^ 2)
    let delta_p_psi := delta_p_pascal * (145038 / 1000000000)
    let TOTAL_PRESSURE_PSI := 1000 + delta_p_psi
    let status := if TOTAL_PRESSURE_PSI > 1200 then "HIGH_PRESSURE_WARNING" else "NOMINAL"
    let warning := if TOTAL_PRESSURE_PSI > 1200 then some "Approaching relief valve threshold." else none
    { input_flow_rate := flow_rate
      estimated_pressure_psi := roundTo2 TOTAL_PRESSURE_PSI
      status := status
      warning := warning }

/-! ## The structured safety report (`schemas/safety.py` lines 4-10) and the
safety critic (`safety.py` lines 22-59)

The Guardrails `Guard.parse` and the RAIL file `safety_spec.rail` that
configures it are not among the given source files: the text-to-JSON parse is
a parameter of the embedding, and the schema check follows the pydantic model
`EngineeringSafetyReport` of `src/app/schemas/safety.py`. -/

/-- A parsed JSON value (what a successful `Guard.parse` feeds to schema
validation). -/
inductive Json where
  | null
  | bool (b : Bool)
  | num (n : Rat)
  | str (s : String)
  | arr (elems : List Json)
  | obj (fields : List (String × Json))

/-- Field lookup in a JSON object. -/
def Json.get? (j : Json) (k : String) : Option Json :=
  match j with
  | Json.obj fields => fields.lookup k
  | _ => none

/-- Schema `EngineeringSafetyReport` (schemas/safety.py lines 4-10). -/
structure EngineeringSafetyReport where
  decision_summary : String
  calculated_value : Rat
  unit : String
  risk_level : String
  manual_references : List String
deriving DecidableEq, Repr

/-- The closed risk set: the pydantic pattern is the anchored alternation of
LOW, MEDIUM and HIGH (schemas/safety.py line 9). -/
def riskLevelAllowed (r : String) : Bool :=
  r == "LOW" || r == "MEDIUM" || r == "HIGH"

/-- What the guard raises: a parse failure (the draft is not valid JSON), a
schema violation (missing/mistyped field or a risk value outside the closed
set), or any other validation exception. The kinds are distinguishable in
the rendered message, as spec section 7 requires. -/
inductive GuardError where
  | parseFailure (msg : String)
  | schemaViolation (msg : String)
  | otherExc (msg : String)
deriving DecidableEq, Repr

/-- The exception text, `str(e)` of safety.py line 57. -/
def GuardError.message : GuardError → String
  | GuardError.parseFailure msg => "parse failure: " ++ msg
  | GuardError.schemaViolation msg => "schema violation: " ++ msg
  | GuardError.otherExc msg => msg

def requireField (j : Json) (name : String) : Except GuardError Json :=
  match j.get? name with
  | some v => Except.ok v
  | none => Except.error (GuardError.schemaViolation ("field missing: " ++ name))

def asStr (name : String) : Json → Except GuardError String
  | Json.str s => Except.ok s
  | _ => Except.error (GuardError.schemaViolation ("field is not a string: " ++ name))

def asNum (name : String) : Json → Except GuardError Rat
  | Json.num n => Except.ok n
  | _ => Except.error (GuardError.schemaViolation ("field is not a number: " ++ name))

def asStrList (name : String) : Json → Except GuardError (List String)
  | Json.arr elems =>
    match elems.mapM (fun e => match e with | Json.str s => some s | _ => none) with
    | some ss => Except.ok ss
    | none => Except.error (GuardError.schemaViolation ("field is not a list of strings: " ++ name))
  | _ => Except.error (GuardError.schemaViolation ("field is not a list of strings: " ++ name))

/-- Schema validation of a parsed draft against `EngineeringSafetyReport`:
every field must be present and well typed and `risk_level` must lie in the
closed LOW/MEDIUM/HIGH set. A structurally valid report with risk HIGH
passes. -/
def validateReport (j : Json) : Except GuardError EngineeringSafetyReport := do
  let ds ← requireField j "decision_summary" >>= asStr "decision_summary"
  let cv ← requireField j "calculated_value" >>= asNum "calculated_value"
  let u ← requireField j "unit" >>= asStr "unit"
  let rl ← requireField j "risk_level" >>= asStr "risk_level"
  if riskLevelAllowed rl then
    let mr ← requireField j "manual_references" >>= asStrList "manual_references"
    Except.ok
      { decision_summary := ds
        calculated_value := cv
        unit := u
        risk_level := rl
        manual_references := mr }
  else
    Except.error (GuardError.schemaViolation "risk_level is not one of LOW, MEDIUM, HIGH")

/-- Modelled from the spec: `guard.parse` of safety.py line 33. The RAIL file
`safety_spec.rail` and the Guardrails library are not among the given source
files; per spec sections 4.2 and 6 the guard parses the draft text as
structured data (the `jsonParse` parameter; `none` means the text is not
parseable) and then enforces the fixed report schema. -/
def guardParse (jsonParse : String → Option Json) (draft : String) :
    Except GuardError EngineeringSafetyReport :=
  match jsonParse draft with
  | none => Except.error (GuardError.parseFailure "draft text is not parseable as structured data")
  | some j => validateReport j

/-- The value `SafetyCritic.validate` returns (safety.py lines 47-58): a
Python dict with keys `status`/`data`/`log` on success and
`status`/`reason`/`log` on failure. -/
inductive CriticVerdict where
  | approved (data : EngineeringSafetyReport) (log : String)
  | rejected (reason : String) (log : String)
deriving DecidableEq, Repr

/-- Method `SafetyCritic.validate` (safety.py lines 22-59): the guard's success
becomes an APPROVED dict carrying the parsed data; every exception is caught
and becomes a REJECTED dict whose reason embeds the exception text. It never
lets an exception escape. -/
def SafetyCritic.validate (jsonParse : String → Option Json) (draft : String) : CriticVerdict :=
  match guardParse jsonParse draft with
  | Except.ok data =>
    CriticVerdict.approved data "Passed RAIL validation: Schema valid, PII sanitized."
  | Except.error e =>
    CriticVerdict.rejected ("RAIL Safety Violation: " ++ e.message) "Rejection triggered by RAIL Guard."

/-- The keys of the returned dict, in insertion order: what Python iterates
when the dict is unpacked. -/
def CriticVerdict.pythonDictKeys : CriticVerdict → List String
  | CriticVerdict.approved _ _ => ["status", "data", "log"]
  | CriticVerdict.rejected _ _ => ["status", "reason", "log"]

/-- Python's `a, b = xs`: unpacking an iterable into two targets succeeds
only on exactly two elements and raises `ValueError` otherwise. -/
def unpackPair {a : Type} (xs : List a) : Except String (a × a) :=
  match xs with
  | [x, y] => Except.ok (x, y)
  | _ :: _ :: _ :: _ => Except.error "ValueError: too many values to unpack (expected 2)"
  | _ => Except.error "ValueError: not enough values to unpack (expected 2)"

/-! ## The workflow state (`AgentState`, orchestrator.py lines 24-33)

Fields the run may not yet have set are `Option`; `run_orchestrator` starts
the state with only `messages` and `query` (orchestrator.py lines 206-209). -/

structure AgentState where
  messages : List String
  query : String
  intent : Option Intent
  retrieved_context : Option String
  calculation_result : Option SimulationResult
  draft_response : Option String
  safety_feedback : Option String
  is_safe : Option Bool
  retries : Option Nat
deriving DecidableEq, Repr

/-- The initial state of `run_orchestrator` (orchestrator.py lines 206-209):
only the message list and the query are set. -/
def initialState (q : String) : AgentState :=
  { messages := [q]
    query := q
    intent := none
    retrieved_context := none
    calculation_result := none
    draft_response := none
    safety_feedback := none
    is_safe := none
    retries := none }

/-! ## The nodes (orchestrator.py lines 37-123)

Each node returns a partial state update that the graph merges into the
state; that merge is written here as a record update. The external
collaborators (the RAG store behind `rag_retriever`, the synthesizer's
language model, the guard's parser) are parameters; a collaborator that
raises is an `Except.error` carrying the exception text. -/

/-- Node `node_planner` (orchestrator.py lines 37-57): classifies the intent from
the query and carries the retry counter forward, defaulting to 0 when the
field is absent (`state.get("retries", 0)`). -/
def node_planner (s : AgentState) : AgentState :=
  { s with intent := some (classifyIntent s.query), retries := some (s.retries.getD 0) }

/-- Node `node_retriever` (orchestrator.py lines 59-69): invokes the knowledge
lookup with the query and stores the context. -/
def node_retriever (rag : String → Except String String) (s : AgentState) :
    Except String AgentState :=
  match rag s.query with
  | Except.ok ctx => Except.ok { s with retrieved_context := some ctx }
  | Except.error e => Except.error e

/-- Node `node_simulator` (orchestrator.py lines 71-82): invokes the calculation
engine with the fixed default flow rate 200 (and the tool's default viscosity
0.9); parameter extraction from the query is out of scope. -/
def node_simulator (s : AgentState) : AgentState :=
  { s with calculation_result := some (calc_pressure_flow 200 (9 / 10)) }

/-- Rendering of the optional simulation record inside the synthesizer's
prompt (the Python f-string interpolates the dict's repr; its exact
formatting is immaterial to every claim, the prompt being consumed only by
the quantified language-model parameter). -/
def simResultText : Option SimulationResult → String
  | none => "N/A"
  | some r =>
    "input_flow_rate: " ++ toString r.input_flow_rate ++
    ", estimated_pressure_psi: " ++ toString r.estimated_pressure_psi ++
    ", status: " ++ r.status

/-- The prompt `node_synthesizer` builds (orchestrator.py lines 91-99). -/
def synthPrompt (s : AgentState) : String :=
  "\n    You are an Engineering Assistant. Answer the user query based on the following data:\n    \n    User Query: " ++
  s.query ++
  "\n    Retrieved Manual Context: " ++ s.retrieved_context.getD "N/A" ++
  "\n    Simulation Result: " ++ simResultText s.calculation_result ++
  "\n    \n    Formulate a clear recommendation.\n    "

/-- Node `node_synthesizer` (orchestrator.py lines 84-104): the language model
(a collaborator) turns the prompt into the draft response. -/
def node_synthesizer (llm : String → Except String String) (s : AgentState) :
    Except String AgentState :=
  match llm (synthPrompt s) with
  | Except.ok content => Except.ok { s with draft_response := some content }
  | Except.error e => Except.error e

/-- Node `node_critic` (orchestrator.py lines 106-123), exactly as written: the
line `is_safe, feedback = SafetyCritic().validate(draft)` iterates the keys
of the dict `validate` returns and unpacks them into two targets. The dict
always has three keys, so the unpack raises `ValueError`; the dead success
branch records the truthiness of the key string that would land in
`is_safe`. -/
def node_critic (jsonParse : String → Option Json) (s : AgentState) :
    Except String AgentState :=
  match s.draft_response with
  | none => Except.error "KeyError: draft_response"
  | some draft =>
    match unpackPair (SafetyCritic.validate jsonParse draft).pythonDictKeys with
    | Except.error e => Except.error e
    | Except.ok (k1, k2) =>
      Except.ok { s with is_safe := some (k1 != ""), safety_feedback := some k2 }

/-! ## The conditional edges (orchestrator.py lines 127-152) -/

/-- Edge `decide_path` (orchestrator.py lines 127-137): retrieval goes to the
retriever, calculation to the simulator, and anything else (hybrid) defaults
to the retriever. -/
def decide_path (intent : Intent) : String :=
  if intent = Intent.retrieval then "retriever"
  else if intent = Intent.calculation then "simulator"
  else "retriever"

inductive SafetyRoute where
  | approved
  | rejected
  | max_retries_exceeded
deriving DecidableEq, Repr

/-- Edge `check_safety` (orchestrator.py lines 139-152): approved when `is_safe`;
otherwise terminal when `retries >= 2`; otherwise the counter is incremented
and the run loops. The function mutates the state's retry field, so it
returns the route together with the updated state. -/
def check_safety (s : AgentState) : SafetyRoute × AgentState :=
  if s.is_safe.getD false then (SafetyRoute.approved, s)
  else if s.retries.getD 0 >= 2 then (SafetyRoute.max_retries_exceeded, s)
  else (SafetyRoute.rejected, { s with retries := some (s.retries.getD 0 + 1) })

/-! ## The graph run (orchestrator.py lines 156-226)

The node wiring and the two conditional edges are source code; the executor
itself is LangGraph's `StateGraph.invoke`, an external library. Per spec
section 4.2 the executor runs CLASSIFY, the routed tool, SYNTHESIZE and
VALIDATE in order, merges each node's update into the state, honours the
retry increment `check_safety` performs, and loops back to CLASSIFY on
rejection. -/

/-- The external collaborators of one run. The synthesizer's language model
takes the pass index as well as the prompt, because it is a potentially
non-deterministic black box and may return a different draft on each retry
pass. -/
structure Collaborators where
  rag : String → Except String String
  llm : Nat → String → Except String String
  jsonParse : String → Option Json

/-- The conditional edge out of the planner, with the graph's label map
`{"retriever": retriever node, "simulator": simulator node}`
(orchestrator.py lines 170-177). -/
def routeTo (c : Collaborators) (s : AgentState) : Except String AgentState :=
  if decide_path (s.intent.getD Intent.hybrid) = "simulator" then
    Except.ok (node_simulator s)
  else
    node_retriever c.rag s

/-- One pass up to the draft: planner, the routed tool, then the
synthesizer (the graph edges of orchestrator.py lines 166-184). By the time
the router reads it, `intent` has been set by the planner; `getD` renders
the direct `state["intent"]` subscript. -/
def runToDraft (c : Collaborators) (passIdx : Nat) (s0 : AgentState) :
    Except String AgentState :=
  match routeTo c (node_planner s0) with
  | Except.error e => Except.error e
  | Except.ok s2 => node_synthesizer (c.llm passIdx) s2

/-- One full pass of the source's graph, ending at `node_critic` exactly as
written (so every pass that reaches the critic raises). -/
def runPassCode (c : Collaborators) (passIdx : Nat) (s0 : AgentState) :
    Except String AgentState :=
  match runToDraft c passIdx s0 with
  | Except.error e => Except.error e
  | Except.ok s3 => node_critic c.jsonParse s3

/-- Modelled from the spec: the VALIDATE step of section 4.2 as intended —
the critic stores an `isSafe` boolean and a feedback string computed from
the validation of the draft. Section 9 leaves the exact policy mapping a
validation outcome to `isSafe` open, so the whole per-draft outcome is the
`critic` parameter; theorems quantify over it. -/
def node_critic_spec (critic : String → Bool × String) (s : AgentState) :
    Except String AgentState :=
  match s.draft_response with
  | none => Except.error "KeyError: draft_response"
  | some draft =>
    Except.ok { s with is_safe := some (critic draft).1, safety_feedback := some (critic draft).2 }

/-- One full pass with the spec's VALIDATE step in place of the raising
`node_critic`. -/
def runPassSpec (c : Collaborators) (critic : String → Bool × String)
    (passIdx : Nat) (s0 : AgentState) : Except String AgentState :=
  match runToDraft c passIdx s0 with
  | Except.error e => Except.error e
  | Except.ok s3 => node_critic_spec critic s3

inductive Outcome where
  | approved
  | exceeded
deriving DecidableEq, Repr

/-- What one pass did: the intent the planner computed, the branch label the
router chose, the retry counter during and after the pass, and the critic's
verdict on the pass's draft. -/
structure PassInfo where
  intent : Intent
  branch : String
  retriesBefore : Nat
  retriesAfter : Nat
  isSafe : Bool
  feedback : String
  draft : String
deriving DecidableEq, Repr

/-- The trace record of a pass, read off the state before and after
`check_safety`. -/
def mkPassInfo (s1 s2 : AgentState) : PassInfo :=
  { intent := s1.intent.getD Intent.hybrid
    branch := decide_path (s1.intent.getD Intent.hybrid)
    retriesBefore := s1.retries.getD 0
    retriesAfter := s2.retries.getD 0
    isSafe := s1.is_safe.getD false
    feedback := s1.safety_feedback.getD ""
    draft := s1.draft_response.getD "" }

/-- The engine loop around a per-pass step function: run the pass, route on
`check_safety`, loop on rejection. `fuel` bounds the recursion; the retry
bound theorem shows fuel 3 is never exhausted, so the value of any larger
bound (LangGraph's own recursion limit) is the same. -/
def loopAux (step : Nat → AgentState → Except String AgentState) :
    Nat → Nat → AgentState → List PassInfo →
    Except String (Option (Outcome × AgentState × List PassInfo))
  | 0, _, _, _ => Except.ok none
  | Nat.succ fuel, passIdx, s, acc =>
    match step passIdx s with
    | Except.error e => Except.error e
    | Except.ok s1 =>
      match check_safety s1 with
      | (SafetyRoute.approved, s2) =>
        Except.ok (some (Outcome.approved, s2, acc ++ [mkPassInfo s1 s2]))
      | (SafetyRoute.max_retries_exceeded, s2) =>
        Except.ok (some (Outcome.exceeded, s2, acc ++ [mkPassInfo s1 s2]))
      | (SafetyRoute.rejected, s2) =>
        loopAux step fuel (passIdx + 1) s2 (acc ++ [mkPassInfo s1 s2])

/-- The graph run with the source's raising `node_critic`. -/
def runGraphCode (c : Collaborators) (q : String) :
    Except String (Outcome × AgentState × List PassInfo) :=
  match loopAux (runPassCode c) 3 0 (initialState q) [] with
  | Except.ok (some r) => Except.ok r
  | Except.ok none => Except.error "GraphRecursionError"
  | Except.error e => Except.error e

/-- The graph run with the spec's VALIDATE step. -/
def runGraphSpec (c : Collaborators) (critic : String → Bool × String) (q : String) :
    Except String (Outcome × AgentState × List PassInfo) :=
  match loopAux (runPassSpec c critic) 3 0 (initialState q) [] with
  | Except.ok (some r) => Except.ok r
  | Except.ok none => Except.error "GraphRecursionError"
  | Except.error e => Except.error e

/-- The terminal result type of `run_orchestrator`
(orchestrator.py lines 214-226). -/
inductive WorkflowResult where
  | success (response : String) (audit_trail : List String)
  | blocked (reason : String) (response : String)
deriving DecidableEq, Repr

/-- The result formatting of `run_orchestrator` (orchestrator.py
lines 215-226): SUCCESS with the draft and the message trail when
`final_state.get("is_safe")` is truthy, BLOCKED_BY_SAFETY with the stored
feedback and the last draft otherwise. -/
def formatResult (fin : AgentState) : WorkflowResult :=
  if fin.is_safe.getD false then
    WorkflowResult.success (fin.draft_response.getD "") fin.messages
  else
    WorkflowResult.blocked (fin.safety_feedback.getD "") (fin.draft_response.getD "")

/-- Runner `run_orchestrator` (orchestrator.py lines 202-226) over the source's
graph. -/
def run_orchestrator (c : Collaborators) (q : String) : Except String WorkflowResult :=
  match runGraphCode c q with
  | Except.error e => Except.error e
  | Except.ok (_, fin, _) => Except.ok (formatResult fin)

/-- Runner `run_orchestrator` over the graph with the spec's VALIDATE step. -/
def run_orchestratorSpec (c : Collaborators) (critic : String → Bool × String)
    (q : String) : Except String WorkflowResult :=
  match runGraphSpec c critic q with
  | Except.error e => Except.error e
  | Except.ok (_, fin, _) => Except.ok (formatResult fin)

/-- Collaborators that never raise, built from total functions. -/
def pureCollabs (rag : String → String) (llm : Nat → String → String)
    (jsonParse : String → Option Json) : Collaborators :=
  { rag := fun q => Except.ok (rag q)
    llm := fun i p => Except.ok (llm i p)
    jsonParse := jsonParse }

/-! ## Concrete validation fixtures -/

/-- A structurally valid report that marks itself maximally risky. -/
def highRiskJson : Json :=
  Json.obj
    [("decision_summary", Json.str "Pressure exceeds maximum allowable limits. IMMEDIATE SHUTDOWN required."),
     ("calculated_value", Json.num 300),
     ("unit", Json.str "PSI"),
     ("risk_level", Json.str "HIGH"),
     ("manual_references", Json.arr [Json.str "Manual B p.99"])]

def highRiskReport : EngineeringSafetyReport :=
  { decision_summary := "Pressure exceeds maximum allowable limits. IMMEDIATE SHUTDOWN required."
    calculated_value := 300
    unit := "PSI"
    risk_level := "HIGH"
    manual_references := ["Manual B p.99"] }

/-- A compliant high-risk draft text (the JSON the critic's own test suite
feeds it, with the schema's field names). -/
def highRiskDraft : String :=
  "\x7b \"decision_summary\": \"Pressure exceeds maximum allowable limits. IMMEDIATE SHUTDOWN required.\", \"calculated_value\": 300, \"unit\": \"PSI\", \"risk_level\": \"HIGH\", \"manual_references\": [\"Manual B p.99\"] \x7d"

/-- A parser under which every draft parses to the high-risk report. -/
def parseHigh : String → Option Json := fun _ => some highRiskJson

/-- A report whose risk value lies outside the closed set. -/
def invalidRiskJson : Json :=
  Json.obj
    [("decision_summary", Json.str "Unknown status."),
     ("calculated_value", Json.num 300),
     ("unit", Json.str "PSI"),
     ("risk_level", Json.str "SUPER_HIGH"),
     ("manual_references", Json.arr [])]

/-- A three-way demonstration parser: one draft is unparseable, one parses
to the invalid-risk report, the rest parse to the high-risk report. -/
def demoParse : String → Option Json := fun d =>
  if d = "The pressure looks okay, just go ahead and open the valve." then none
  else if d = "super high draft" then some invalidRiskJson
  else some highRiskJson

/-! ## Stub collaborators for concrete runs -/

def ragStub : String → String := fun _ => "No relevant manuals found."

def llmStub : Nat → String → String := fun _ _ => "draft"

def criticReject : String → Bool × String := fun _ => (false, "unsafe recommendation")

def collabsFailRetrieve : Collaborators :=
  { rag := fun _ => Except.error "boom"
    llm := fun _ _ => Except.ok "draft"
    jsonParse := parseHigh }

def collabsFailSynth : Collaborators :=
  { rag := fun _ => Except.ok "ctx"
    llm := fun _ _ => Except.error "boom"
    jsonParse := parseHigh }

def collabsRagFail : Collaborators :=
  { rag := fun _ => Except.error "ConnectionError: vector store unreachable"
    llm := fun _ _ => Except.ok "draft"
    jsonParse := parseHigh }

/-! ## C5: the intent classifier -/

/-- C5: the intent classifier is total and deterministic (it is a function on
all of `String`): a query with a digit and a "psi"/"m3" token (on the
lowercased text) classifies as CALCULATION; otherwise a "safety"/"manual"
keyword classifies as RETRIEVAL; every other query is HYBRID. -/
theorem classifyIntent_cases (q : String) :
    (classifyIntent q = Intent.calculation ↔
      (hasDigit q && (containsSub (lowerStr q) "psi" || containsSub (lowerStr q) "m3")) = true) ∧
    (classifyIntent q = Intent.retrieval ↔
      (hasDigit q && (containsSub (lowerStr q) "psi" || containsSub (lowerStr q) "m3")) = false ∧
      (containsSub (lowerStr q) "safety" || containsSub (lowerStr q) "manual") = true) ∧
    (classifyIntent q = Intent.hybrid ↔
      (hasDigit q && (containsSub (lowerStr q) "psi" || containsSub (lowerStr q) "m3")) = false ∧
      (containsSub (lowerStr q) "safety" || containsSub (lowerStr q) "manual") = false) := by
  cases h1 : hasDigit q && (containsSub (lowerStr q) "psi" || containsSub (lowerStr q) "m3") <;>
    cases h2 : containsSub (lowerStr q) "safety" || containsSub (lowerStr q) "manual" <;>
      simp [classifyIntent, h1, h2]

/-- Witness: the classifier on the spec's three scenario queries. -/
theorem classifyIntent_cases_witness :
    classifyIntent "Flow is 200 m3 at 850 psi, is this safe?" = Intent.calculation ∧
    classifyIntent "What is the maximum safe pressure per the manual?" = Intent.retrieval ∧
    classifyIntent "hello there" = Intent.hybrid :=
  ⟨(classifyIntent_cases "Flow is 200 m3 at 850 psi, is this safe?").1.mpr (by decide),
   (classifyIntent_cases "What is the maximum safe pressure per the manual?").2.1.mpr (by decide),
   (classifyIntent_cases "hello there").2.2.mpr (by decide)⟩

/-! ## C7: the calculation engine on negative flow -/

/-- C7: for every negative flow rate and every viscosity,
`calc_pressure_flow` returns the ERROR record with pressure 0.0 and the
input echoed back. The embedding is a total function, so no exception can
escape. -/
theorem calc_pressure_flow_negative (fr visc : Rat) (h : fr < 0) :
    calc_pressure_flow fr visc =
      { input_flow_rate := fr
        estimated_pressure_psi := 0
        status := "ERROR"
        warning := some "Flow rate cannot be negative." } := by
  unfold calc_pressure_flow
  rw [if_pos h]

/-- Witness: the ERROR record at the concrete flow rate -5. -/
theorem calc_pressure_flow_negative_witness :
    calc_pressure_flow (-5) (9 / 10) =
      { input_flow_rate := -5
        estimated_pressure_psi := 0
        status := "ERROR"
        warning := some "Flow rate cannot be negative." } :=
  calc_pressure_flow_negative (-5) (9 / 10) (by norm_num)

/-! ## C2: the critic node never reads a field of the approved report -/

/-- C2 (the code at work at a concrete approved draft): validation of the
high-risk draft returns the APPROVED dict carrying the parsed report, yet
`node_critic` raises `ValueError` at the two-target unpack of that three-key
dict — `is_safe` is never computed from any field of the validated report. -/
theorem node_critic_unpack_raises :
    SafetyCritic.validate parseHigh highRiskDraft =
      CriticVerdict.approved highRiskReport "Passed RAIL validation: Schema valid, PII sanitized." ∧
    node_critic parseHigh { initialState "q" with draft_response := some highRiskDraft } =
      Except.error "ValueError: too many values to unpack (expected 2)" :=
  ⟨rfl, rfl⟩

/-! ## C3: the safety validator's two-outcome contract -/

/-- C3: for every parser and draft, `SafetyCritic.validate` lands in exactly
one of two outcomes — APPROVED carrying the parsed report when the draft
parses and conforms to the schema (risk HIGH included), REJECTED with a
parse-failure reason when the draft is not parseable, REJECTED with a
schema-violation reason when it parses but violates the schema, and
REJECTED for every other guard exception; the function is total, so no
exception escapes. -/
theorem safety_validate_contract (jsonParse : String → Option Json) (draft : String) :
    (∀ j data, jsonParse draft = some j → validateReport j = Except.ok data →
      SafetyCritic.validate jsonParse draft =
        CriticVerdict.approved data "Passed RAIL validation: Schema valid, PII sanitized.") ∧
    (jsonParse draft = none →
      SafetyCritic.validate jsonParse draft =
        CriticVerdict.rejected
          "RAIL Safety Violation: parse failure: draft text is not parseable as structured data"
          "Rejection triggered by RAIL Guard.") ∧
    (∀ j msg, jsonParse draft = some j →
      validateReport j = Except.error (GuardError.schemaViolation msg) →
      SafetyCritic.validate jsonParse draft =
        CriticVerdict.rejected ("RAIL Safety Violation: " ++ ("schema violation: " ++ msg))
          "Rejection triggered by RAIL Guard.") ∧
    (∀ e, guardParse jsonParse draft = Except.error e →
      SafetyCritic.validate jsonParse draft =
        CriticVerdict.rejected ("RAIL Safety Violation: " ++ e.message)
          "Rejection triggered by RAIL Guard.") ∧
    ((∃ data log, SafetyCritic.validate jsonParse draft = CriticVerdict.approved data log) ∨
      (∃ reason log, SafetyCritic.validate jsonParse draft = CriticVerdict.rejected reason log)) := by
  refine ⟨?_, ?_, ?_, ?_, ?_⟩
  · intro j data hj hv
    simp [SafetyCritic.validate, guardParse, hj, hv]
  · intro hj
    simp [SafetyCritic.validate, guardParse, hj, GuardError.message]
  · intro j msg hj hv
    simp [SafetyCritic.validate, guardParse, hj, hv, GuardError.message]
  · intro e he
    simp [SafetyCritic.validate, he]
  · cases hg : guardParse jsonParse draft with
    | ok data =>
      exact Or.inl ⟨data, "Passed RAIL validation: Schema valid, PII sanitized.",
        by simp [SafetyCritic.validate, hg]⟩
    | error e =>
      exact Or.inr ⟨"RAIL Safety Violation: " ++ e.message, "Rejection triggered by RAIL Guard.",
        by simp [SafetyCritic.validate, hg]⟩

/-- Witness: the validator contract at concrete drafts — a compliant
high-risk draft is approved, unparseable text is rejected for parse
failure, and an out-of-set risk value is rejected for schema violation. -/
theorem safety_validate_contract_witness :
    SafetyCritic.validate demoParse "high risk draft" =
      CriticVerdict.approved highRiskReport "Passed RAIL validation: Schema valid, PII sanitized." ∧
    SafetyCritic.validate demoParse "The pressure looks okay, just go ahead and open the valve." =
      CriticVerdict.rejected
        "RAIL Safety Violation: parse failure: draft text is not parseable as structured data"
        "Rejection triggered by RAIL Guard." ∧
    SafetyCritic.validate demoParse "super high draft" =
      CriticVerdict.rejected
        ("RAIL Safety Violation: " ++ ("schema violation: " ++ "risk_level is not one of LOW, MEDIUM, HIGH"))
        "Rejection triggered by RAIL Guard." :=
  ⟨(safety_validate_contract demoParse "high risk draft").1 highRiskJson highRiskReport rfl rfl,
   (safety_validate_contract demoParse "The pressure looks okay, just go ahead and open the valve.").2.1 rfl,
   (safety_validate_contract demoParse "super high draft").2.2.1 invalidRiskJson
     "risk_level is not one of LOW, MEDIUM, HIGH" rfl rfl⟩

/-! ## One pass over collaborators that do not raise -/

/-- What one pass does to the state when the collaborators return normally:
the planner recomputes the intent from the (unchanged) query and carries the
retry counter forward, the routed tool and the synthesizer fill their
fields, and the VALIDATE step stores the critic's verdict on the pass's
draft. On the hybrid route the calculation engine is never invoked and the
knowledge lookup is. -/
theorem runPassSpec_pure (rag : String → String) (llm : Nat → String → String)
    (jp : String → Option Json) (critic : String → Bool × String)
    (i : Nat) (s : AgentState) :
    ∃ s1 d, runPassSpec (pureCollabs rag llm jp) critic i s = Except.ok s1 ∧
      s1.query = s.query ∧
      s1.messages = s.messages ∧
      s1.intent = some (classifyIntent s.query) ∧
      s1.retries = some (s.retries.getD 0) ∧
      s1.draft_response = some d ∧
      s1.is_safe = some (critic d).1 ∧
      s1.safety_feedback = some (critic d).2 ∧
      (decide_path (classifyIntent s.query) = "simulator" ∨
        (s1.calculation_result = s.calculation_result ∧
          s1.retrieved_context = some (rag s.query))) := by
  by_cases hroute : decide_path (classifyIntent s.query) = "simulator"
  · refine
      ⟨{ node_simulator (node_planner s) with
          draft_response := some (llm i (synthPrompt (node_simulator (node_planner s)))),
          is_safe := some (critic (llm i (synthPrompt (node_simulator (node_planner s))))).1,
          safety_feedback := some (critic (llm i (synthPrompt (node_simulator (node_planner s))))).2 },
        llm i (synthPrompt (node_simulator (node_planner s))), ?_, ?_⟩
    · simp [runPassSpec, runToDraft, routeTo, node_planner, hroute, node_synthesizer,
        pureCollabs, node_critic_spec, node_simulator]
    · simp [node_simulator, node_planner, hroute]
  · refine
      ⟨{ node_planner s with
          retrieved_context := some (rag s.query),
          draft_response := some (llm i (synthPrompt { node_planner s with retrieved_context := some (rag s.query) })),
          is_safe := some (critic (llm i (synthPrompt { node_planner s with retrieved_context := some (rag s.query) }))).1,
          safety_feedback := some (critic (llm i (synthPrompt { node_planner s with retrieved_context := some (rag s.query) }))).2 },
        llm i (synthPrompt { node_planner s with retrieved_context := some (rag s.query) }), ?_, ?_⟩
    · simp [runPassSpec, runToDraft, routeTo, node_planner, hroute, node_synthesizer,
        pureCollabs, node_critic_spec, node_retriever]
    · simp [node_planner]

/-- One unfolding of the engine loop. -/
theorem loopAux_step (step : Nat → AgentState → Except String AgentState)
    (fuel passIdx : Nat) (s : AgentState) (acc : List PassInfo) :
    loopAux step (fuel + 1) passIdx s acc =
      match step passIdx s with
      | Except.error e => Except.error e
      | Except.ok s1 =>
        match check_safety s1 with
        | (SafetyRoute.approved, s2) =>
          Except.ok (some (Outcome.approved, s2, acc ++ [mkPassInfo s1 s2]))
        | (SafetyRoute.max_retries_exceeded, s2) =>
          Except.ok (some (Outcome.exceeded, s2, acc ++ [mkPassInfo s1 s2]))
        | (SafetyRoute.rejected, s2) =>
          loopAux step fuel (passIdx + 1) s2 (acc ++ [mkPassInfo s1 s2]) := rfl

/-- Shared characterization of a complete run over collaborators that
return normally, with the spec's VALIDATE step: the run succeeds, makes
between one and three passes, the retry counter observed by the passes is
exactly 0, 1, 2, ..., every pass recomputes the same intent and branch from
the unchanged query, the final state holds the final pass's verdict, draft
and feedback, every non-final pass is a rejection that increments the
counter by one, and a hybrid run never touches the calculation result while
always storing the retrieved context. -/
theorem runGraphSpec_master (rag : String → String) (llm : Nat → String → String)
    (jp : String → Option Json) (critic : String → Bool × String) (q : String) :
    ∃ out fin trace,
      runGraphSpec (pureCollabs rag llm jp) critic q = Except.ok (out, fin, trace) ∧
      1 ≤ trace.length ∧ trace.length ≤ 3 ∧
      trace.map PassInfo.retriesBefore = List.range trace.length ∧
      (∀ p ∈ trace, p.intent = classifyIntent q ∧ p.branch = decide_path (classifyIntent q) ∧
        p.retriesBefore ≤ 2 ∧ p.retriesAfter ≤ 2) ∧
      (∃ last, trace.getLast? = some last ∧
        fin.is_safe = some last.isSafe ∧
        fin.safety_feedback = some last.feedback ∧
        fin.draft_response = some last.draft ∧
        fin.messages = [q] ∧
        fin.retries = some last.retriesAfter ∧
        last.retriesAfter = last.retriesBefore ∧
        (out = Outcome.approved ↔ last.isSafe = true) ∧
        (out = Outcome.exceeded ↔ last.isSafe = false)) ∧
      (∀ k, k + 1 < trace.length → ∃ p, trace.get? k = some p ∧ p.isSafe = false ∧
        p.retriesAfter = p.retriesBefore + 1) ∧
      (classifyIntent q = Intent.hybrid →
        fin.calculation_result = none ∧ fin.retrieved_context = some (rag q)) := by
  obtain ⟨t0, d0, h0, hq0, hm0, hi0, hr0, hd0, hs0, hf0, hx0⟩ :=
    runPassSpec_pure rag llm jp critic 0 (initialState q)
  simp only [initialState] at hq0 hm0 hi0 hr0 hx0
  cases hb0 : (critic d0).1
  case true =>
    have hcs : check_safety t0 = (SafetyRoute.approved, t0) := by
      simp [check_safety, hs0, hb0]
    have hloop : loopAux (runPassSpec (pureCollabs rag llm jp) critic) 3 0 (initialState q) [] =
        Except.ok (some (Outcome.approved, t0, [mkPassInfo t0 t0])) := by
      rw [show (3 : Nat) = 2 + 1 from rfl, loopAux_step, h0]
      simp [hcs]
    refine ⟨Outcome.approved, t0, [mkPassInfo t0 t0], by simp [runGraphSpec, hloop],
      by simp, by simp, ?_, ?_, ?_, ?_, ?_⟩
    · simp only [List.map_cons, List.map_nil, List.length_cons, List.length_nil, mkPassInfo, hr0]
      decide
    · intro p hp
      simp only [List.mem_singleton] at hp
      subst hp
      simp [mkPassInfo, hi0, hr0]
    · refine ⟨mkPassInfo t0 t0, by simp, ?_, ?_, ?_, ?_, ?_, ?_, ?_, ?_⟩ <;>
        simp [mkPassInfo, hs0, hb0, hf0, hd0, hm0, hr0]
    · intro k hk
      exact absurd hk (by simp)
    · intro hhy
      rcases hx0 with hsim | ⟨hc, hr⟩
      · rw [hhy] at hsim
        exact absurd hsim (by decide)
      · exact ⟨hc, hr⟩
  case false =>
    have hcs : check_safety t0 = (SafetyRoute.rejected, { t0 with retries := some 1 }) := by
      simp [check_safety, hs0, hb0, hr0]
    obtain ⟨t1, d1, h1, hq1, hm1, hi1, hr1, hd1, hs1, hf1, hx1⟩ :=
      runPassSpec_pure rag llm jp critic 1 { t0 with retries := some 1 }
    simp only [hq0] at hq1 hi1 hx1
    simp only [hm0] at hm1
    simp only at hr1
    have hloop1 : loopAux (runPassSpec (pureCollabs rag llm jp) critic) 3 0 (initialState q) [] =
        loopAux (runPassSpec (pureCollabs rag llm jp) critic) 2 1 { t0 with retries := some 1 }
          [mkPassInfo t0 { t0 with retries := some 1 }] := by
      rw [show (3 : Nat) = 2 + 1 from rfl, loopAux_step, h0]
      simp [hcs]
    cases hb1 : (critic d1).1
    case true =>
      have hcs1 : check_safety t1 = (SafetyRoute.approved, t1) := by
        simp [check_safety, hs1, hb1]
      have hloop : loopAux (runPassSpec (pureCollabs rag llm jp) critic) 3 0 (initialState q) [] =
          Except.ok (some (Outcome.approved, t1,
            [mkPassInfo t0 { t0 with retries := some 1 }, mkPassInfo t1 t1])) := by
        rw [hloop1, show (2 : Nat) = 1 + 1 from rfl, loopAux_step, h1]
        simp [hcs1]
      refine ⟨Outcome.approved, t1,
        [mkPassInfo t0 { t0 with retries := some 1 }, mkPassInfo t1 t1],
        by simp [runGraphSpec, hloop], by simp, by simp, ?_, ?_, ?_, ?_, ?_⟩
      · simp only [List.map_cons, List.map_nil, List.length_cons, List.length_nil, mkPassInfo, hr0, hr1]
        decide
      · intro p hp
        simp only [List.mem_cons, List.mem_singleton, List.not_mem_nil, or_false] at hp
        rcases hp with rfl | rfl
        · simp [mkPassInfo, hi0, hr0]
        · simp [mkPassInfo, hi1, hr1, hq1]
      · refine ⟨mkPassInfo t1 t1, by simp, ?_, ?_, ?_, ?_, ?_, ?_, ?_, ?_⟩ <;>
          simp [mkPassInfo, hs1, hb1, hf1, hd1, hm1, hr1]
      · intro k hk
        simp only [List.length_cons, List.length_nil] at hk
        have hk0 : k = 0 := by omega
        subst hk0
        exact ⟨mkPassInfo t0 { t0 with retries := some 1 }, by simp,
          by simp [mkPassInfo, hs0, hb0], by simp [mkPassInfo, hr0]⟩
      · intro hhy
        have hne : decide_path Intent.hybrid ≠ "simulator" := by decide
        rcases hx0 with hsim | ⟨hc0, hrc0⟩
        · rw [hhy] at hsim
          exact absurd hsim hne
        rcases hx1 with hsim | ⟨hc1, hrc1⟩
        · rw [hhy] at hsim
          exact absurd hsim hne
        refine ⟨?_, ?_⟩
        · rw [hc1]
          simpa using hc0
        · rw [hrc1]
    case false =>
      have hcs1 : check_safety t1 = (SafetyRoute.rejected, { t1 with retries := some 2 }) := by
        simp [check_safety, hs1, hb1, hr1]
      obtain ⟨t2, d2, h2, hq2, hm2, hi2, hr2, hd2, hs2, hf2, hx2⟩ :=
        runPassSpec_pure rag llm jp critic 2 { t1 with retries := some 2 }
      simp only [hq1] at hq2 hi2 hx2
      simp only [hm1] at hm2
      simp only at hr2
      have hloop2 : loopAux (runPassSpec (pureCollabs rag llm jp) critic) 3 0 (initialState q) [] =
          loopAux (runPassSpec (pureCollabs rag llm jp) critic) 1 2 { t1 with retries := some 2 }
            [mkPassInfo t0 { t0 with retries := some 1 },
              mkPassInfo t1 { t1 with retries := some 2 }] := by
        rw [hloop1, show (2 : Nat) = 1 + 1 from rfl, loopAux_step, h1]
        simp [hcs1]
      cases hb2 : (critic d2).1
      case true =>
        have hcs2 : check_safety t2 = (SafetyRoute.approved, t2) := by
          simp [check_safety, hs2, hb2]
        have hloop : loopAux (runPassSpec (pureCollabs rag llm jp) critic) 3 0 (initialState q) [] =
            Except.ok (some (Outcome.approved, t2,
              [mkPassInfo t0 { t0 with retries := some 1 },
                mkPassInfo t1 { t1 with retries := some 2 }, mkPassInfo t2 t2])) := by
          rw [hloop2, show (1 : Nat) = 0 + 1 from rfl, loopAux_step, h2]
          simp [hcs2]
        refine ⟨Outcome.approved, t2,
          [mkPassInfo t0 { t0 with retries := some 1 },
            mkPassInfo t1 { t1 with retries := some 2 }, mkPassInfo t2 t2],
          by simp [runGraphSpec, hloop], by simp, by simp, ?_, ?_, ?_, ?_, ?_⟩
        · simp only [List.map_cons, List.map_nil, List.length_cons, List.length_nil, mkPassInfo, hr0, hr1, hr2]
          decide
        · intro p hp
          simp only [List.mem_cons, List.mem_singleton, List.not_mem_nil, or_false] at hp
          rcases hp with rfl | rfl | rfl
          · simp [mkPassInfo, hi0, hr0]
          · simp [mkPassInfo, hi1, hr1, hq1]
          · simp [mkPassInfo, hi2, hr2, hq2]
        · refine ⟨mkPassInfo t2 t2, by simp, ?_, ?_, ?_, ?_, ?_, ?_, ?_, ?_⟩ <;>
            simp [mkPassInfo, hs2, hb2, hf2, hd2, hm2, hr2]
        · intro k hk
          simp only [List.length_cons, List.length_nil] at hk
          have hk01 : k = 0 ∨ k = 1 := by omega
          rcases hk01 with rfl | rfl
          · exact ⟨mkPassInfo t0 { t0 with retries := some 1 }, by simp,
              by simp [mkPassInfo, hs0, hb0], by simp [mkPassInfo, hr0]⟩
          · exact ⟨mkPassInfo t1 { t1 with retries := some 2 }, by simp,
              by simp [mkPassInfo, hs1, hb1], by simp [mkPassInfo, hr1]⟩
        · intro hhy
          have hne : decide_path Intent.hybrid ≠ "simulator" := by decide
          rcases hx0 with hsim | ⟨hc0, hrc0⟩
          · rw [hhy] at hsim
            exact absurd hsim hne
          rcases hx1 with hsim | ⟨hc1, hrc1⟩
          · rw [hhy] at hsim
            exact absurd hsim hne
          rcases hx2 with hsim | ⟨hc2, hrc2⟩
          · rw [hhy] at hsim
            exact absurd hsim hne
          refine ⟨?_, ?_⟩
          · rw [hc2, hc1]
            simpa using hc0
          · rw [hrc2]
      case false =>
        have hcs2 : check_safety t2 = (SafetyRoute.max_retries_exceeded, t2) := by
          simp [check_safety, hs2, hb2, hr2]
        have hloop : loopAux (runPassSpec (pureCollabs rag llm jp) critic) 3 0 (initialState q) [] =
            Except.ok (some (Outcome.exceeded, t2,
              [mkPassInfo t0 { t0 with retries := some 1 },
                mkPassInfo t1 { t1 with retries := some 2 }, mkPassInfo t2 t2])) := by
          rw [hloop2, show (1 : Nat) = 0 + 1 from rfl, loopAux_step, h2]
          simp [hcs2]
        refine ⟨Outcome.exceeded, t2,
          [mkPassInfo t0 { t0 with retries := some 1 },
            mkPassInfo t1 { t1 with retries := some 2 }, mkPassInfo t2 t2],
          by simp [runGraphSpec, hloop], by simp, by simp, ?_, ?_, ?_, ?_, ?_⟩
        · simp only [List.map_cons, List.map_nil, List.length_cons, List.length_nil, mkPassInfo, hr0, hr1, hr2]
          decide
        · intro p hp
          simp only [List.mem_cons, List.mem_singleton, List.not_mem_nil, or_false] at hp
          rcases hp with rfl | rfl | rfl
          · simp [mkPassInfo, hi0, hr0]
          · simp [mkPassInfo, hi1, hr1, hq1]
          · simp [mkPassInfo, hi2, hr2, hq2]
        · refine ⟨mkPassInfo t2 t2, by simp, ?_, ?_, ?_, ?_, ?_, ?_, ?_, ?_⟩ <;>
            simp [mkPassInfo, hs2, hb2, hf2, hd2, hm2, hr2]
        · intro k hk
          simp only [List.length_cons, List.length_nil] at hk
          have hk01 : k = 0 ∨ k = 1 := by omega
          rcases hk01 with rfl | rfl
          · exact ⟨mkPassInfo t0 { t0 with retries := some 1 }, by simp,
              by simp [mkPassInfo, hs0, hb0], by simp [mkPassInfo, hr0]⟩
          · exact ⟨mkPassInfo t1 { t1 with retries := some 2 }, by simp,
              by simp [mkPassInfo, hs1, hb1], by simp [mkPassInfo, hr1]⟩
        · intro hhy
          have hne : decide_path Intent.hybrid ≠ "simulator" := by decide
          rcases hx0 with hsim | ⟨hc0, hrc0⟩
          · rw [hhy] at hsim
            exact absurd hsim hne
          rcases hx1 with hsim | ⟨hc1, hrc1⟩
          · rw [hhy] at hsim
            exact absurd hsim hne
          rcases hx2 with hsim | ⟨hc2, hrc2⟩
          · rw [hhy] at hsim
            exact absurd hsim hne
          refine ⟨?_, ?_⟩
          · rw [hc2, hc1]
            simpa using hc0
          · rw [hrc2]

/-! ## C1 -/

/-- C1 counterexample: on the source graph as written, the query "hello"
with collaborators that return normally raises `ValueError` inside the first
critic pass, so the run reaches neither an APPROVED nor an EXCEEDED
outcome. -/
theorem runGraphCode_never_terminates_on_hello :
    runGraphCode (pureCollabs ragStub llmStub parseHigh) "hello" =
      Except.error "ValueError: too many values to unpack (expected 2)" := rfl

/-- C1 (amended): once each validation pass yields an is-safe/feedback pair
(the spec's VALIDATE step, in place of the critic's raising dict unpack),
every run terminates in an APPROVED or EXCEEDED outcome within at most 3
synthesize/validate passes; the retry counter starts at 0, is monotonically
non-decreasing (the observed values are exactly 0, 1, 2, ...), is
incremented exactly once per safety rejection, and never exceeds 2. -/
theorem workflow_retry_bound (rag : String → String) (llm : Nat → String → String)
    (jp : String → Option Json) (critic : String → Bool × String) (q : String) :
    ∃ out fin trace,
      runGraphSpec (pureCollabs rag llm jp) critic q = Except.ok (out, fin, trace) ∧
      1 ≤ trace.length ∧ trace.length ≤ 3 ∧
      trace.map PassInfo.retriesBefore = List.range trace.length ∧
      (∀ p ∈ trace, p.retriesBefore ≤ 2 ∧ p.retriesAfter ≤ 2) ∧
      (∀ k, k + 1 < trace.length → ∃ p, trace.get? k = some p ∧ p.isSafe = false ∧
        p.retriesAfter = p.retriesBefore + 1) ∧
      (out = Outcome.approved ∨ out = Outcome.exceeded) := by
  obtain ⟨out, fin, trace, hrun, h1, h3, hmap, hall, hlast, hnon, hhyb⟩ :=
    runGraphSpec_master rag llm jp critic q
  exact ⟨out, fin, trace, hrun, h1, h3, hmap,
    fun p hp => ⟨(hall p hp).2.2.1, (hall p hp).2.2.2⟩, hnon, by cases out <;> simp⟩

/-! ## C4 -/

/-- C4 counterexample: `run_orchestrator` as written returns neither a
Success nor a Blocked result on a retrieval query with normally returning
collaborators — it raises `ValueError` out of the critic node. -/
theorem run_orchestrator_raises_on_manual_query :
    run_orchestrator (pureCollabs ragStub llmStub parseHigh) "Show me the manual" =
      Except.error "ValueError: too many values to unpack (expected 2)" := rfl

/-- C4 (amended): once each validation pass yields an is-safe/feedback pair,
the run returns exactly one of two terminal results: Success with the final
draft and the audit trail when the final check passes, or Blocked carrying
the last draft and the reason produced by the final (most recent) validation
pass — never an earlier one, since the final state's feedback is the last
pass's. -/
theorem run_orchestrator_terminal_dichotomy (rag : String → String)
    (llm : Nat → String → String) (jp : String → Option Json)
    (critic : String → Bool × String) (q : String) :
    ∃ out fin trace last,
      runGraphSpec (pureCollabs rag llm jp) critic q = Except.ok (out, fin, trace) ∧
      trace.getLast? = some last ∧
      (out = Outcome.approved ↔ last.isSafe = true) ∧
      run_orchestratorSpec (pureCollabs rag llm jp) critic q =
        Except.ok (if last.isSafe then WorkflowResult.success last.draft [q]
          else WorkflowResult.blocked last.feedback last.draft) := by
  obtain ⟨out, fin, trace, hrun, h1, h3, hmap, hall,
    ⟨last, hl, hsafe, hfb, hdr, hmsg, hre, hra, happ, hexc⟩, hnon, hhyb⟩ :=
    runGraphSpec_master rag llm jp critic q
  refine ⟨out, fin, trace, last, hrun, hl, happ, ?_⟩
  simp only [run_orchestratorSpec, hrun, formatResult, hsafe, hfb, hdr, hmsg]
  cases hb : last.isSafe <;> simp [hb]

/-! ## C6 -/

/-- C6: on every pass of every run whose query classifies as HYBRID the
router chooses the retrieval branch: the branch label is "retriever" and
never "simulator" on every pass, the knowledge lookup's result is stored,
and the calculation engine's result slot stays empty for the whole run. -/
theorem hybrid_takes_retrieval_branch (rag : String → String)
    (llm : Nat → String → String) (jp : String → Option Json)
    (critic : String → Bool × String) (q : String)
    (hq : classifyIntent q = Intent.hybrid) :
    ∃ out fin trace,
      runGraphSpec (pureCollabs rag llm jp) critic q = Except.ok (out, fin, trace) ∧
      1 ≤ trace.length ∧
      (∀ p ∈ trace, p.branch = "retriever" ∧ p.branch ≠ "simulator") ∧
      fin.calculation_result = none ∧
      fin.retrieved_context = some (rag q) := by
  obtain ⟨out, fin, trace, hrun, h1, h3, hmap, hall, hlast, hnon, hhyb⟩ :=
    runGraphSpec_master rag llm jp critic q
  refine ⟨out, fin, trace, hrun, h1, ?_, (hhyb hq).1, (hhyb hq).2⟩
  intro p hp
  have hb := (hall p hp).2.1
  rw [hq] at hb
  rw [hb]
  exact ⟨rfl, by decide⟩

/-- Witness: the hybrid query "hello there" run against concrete stub
collaborators takes the retrieval branch on every pass. -/
theorem hybrid_takes_retrieval_branch_witness :
    classifyIntent "hello there" = Intent.hybrid ∧
    ∃ out fin trace,
      runGraphSpec (pureCollabs ragStub llmStub parseHigh) criticReject "hello there" =
        Except.ok (out, fin, trace) ∧
      1 ≤ trace.length ∧
      (∀ p ∈ trace, p.branch = "retriever" ∧ p.branch ≠ "simulator") ∧
      fin.calculation_result = none ∧
      fin.retrieved_context = some (ragStub "hello there") :=
  ⟨by decide,
   hybrid_takes_retrieval_branch ragStub llmStub parseHigh criticReject "hello there" (by decide)⟩

/-! ## C8 -/

/-- C8 counterexample: a knowledge-lookup failure and a synthesizer failure
propagate to the caller as the very same raw error value — the propagated
error is no stage-tagged CollaboratorFailure, so the caller cannot tell
which stage failed. -/
theorem collaborator_failure_carries_no_stage :
    run_orchestrator collabsFailRetrieve "check the manual" = Except.error "boom" ∧
    run_orchestrator collabsFailSynth "check the manual" = Except.error "boom" ∧
    run_orchestrator collabsFailRetrieve "check the manual" =
      run_orchestrator collabsFailSynth "check the manual" :=
  ⟨rfl, rfl, rfl⟩

/-- C8 (amended): any exception a collaborator raises during a pass is not
caught by the engine: the run aborts immediately with that exact exception
(no partial success, no internal retry), and `run_orchestrator` surfaces it
unchanged to its caller. -/
theorem collaborator_failure_propagates (c : Collaborators) (q e : String)
    (h : runToDraft c 0 (initialState q) = Except.error e) :
    runGraphCode c q = Except.error e ∧ run_orchestrator c q = Except.error e := by
  have hpass : runPassCode c 0 (initialState q) = Except.error e := by
    unfold runPassCode
    rw [h]
  have hloop : loopAux (runPassCode c) 3 0 (initialState q) [] = Except.error e := by
    rw [show (3 : Nat) = 2 + 1 from rfl, loopAux_step, hpass]
  constructor
  · unfold runGraphCode
    rw [hloop]
  · unfold run_orchestrator runGraphCode
    rw [hloop]

/-- Witness: a concrete connectivity failure in the knowledge lookup aborts
a concrete run with exactly that error. -/
theorem collaborator_failure_propagates_witness :
    runGraphCode collabsRagFail "check the manual" =
      Except.error "ConnectionError: vector store unreachable" ∧
    run_orchestrator collabsRagFail "check the manual" =
      Except.error "ConnectionError: vector store unreachable" :=
  collaborator_failure_propagates collabsRagFail "check the manual"
    "ConnectionError: vector store unreachable" rfl

/-! ## C9 -/

/-- C9: within a single run the intent is stable across retries: every
re-entry into the classification step applies the deterministic heuristic to
the unchanged query, so every pass of the run records the same intent and
takes the identical routing branch. -/
theorem intent_stable_across_retries (rag : String → String)
    (llm : Nat → String → String) (jp : String → Option Json)
    (critic : String → Bool × String) (q : String) :
    ∃ out fin trace,
      runGraphSpec (pureCollabs rag llm jp) critic q = Except.ok (out, fin, trace) ∧
      1 ≤ trace.length ∧
      (∀ p ∈ trace, p.intent = classifyIntent q ∧ p.branch = decide_path (classifyIntent q)) := by
  obtain ⟨out, fin, trace, hrun, h1, h3, hmap, hall, hlast, hnon, hhyb⟩ :=
    runGraphSpec_master rag llm jp critic q
  exact ⟨out, fin, trace, hrun, h1, fun p hp => ⟨(hall p hp).1, (hall p hp).2.1⟩⟩

/-! ## C10 -/

/-- C10: the classification step leaves the retry counter unchanged: the
update `node_planner` produces carries the current retries value forward,
defaulting to 0 only when the field is absent (the very first pass), and
never resets or decrements it. -/
theorem node_planner_preserves_retries (s : AgentState) :
    (node_planner s).retries = some (s.retries.getD 0) ∧
    (s.retries = none → (node_planner s).retries = some 0) ∧
    (∀ r, s.retries = some r → (node_planner s).retries = some r) ∧
    (node_planner s).query = s.query := by
  refine ⟨rfl, ?_, ?_, rfl⟩
  · intro h
    simp [node_planner, h]
  · intro r h
    simp [node_planner, h]

/-- Witness: the planner carries a present retry counter forward and
defaults an absent one to 0, at concrete states. -/
theorem node_planner_preserves_retries_witness :
    (node_planner { initialState "x" with retries := some 2 }).retries = some 2 ∧
    (node_planner (initialState "x")).retries = some 0 :=
  ⟨(node_planner_preserves_retries { initialState "x" with retries := some 2 }).2.2.1 2 rfl,
   (node_planner_preserves_retries (initialState "x")).2.1 rfl⟩
